import Mathlib

/-!
Verification model of the `arti-ffi` bridge layer
(`src/rust/arti-ffi/src/lib.rs`).

The Rust library is a blocking C-compatible facade over an asynchronous
Tor client.  The engineering-original part modelled here is the registry
and bridging layer: the runtime singleton, the client/circuit/stream/TLS
registries, handle generation, input validation and result marshaling.

Modelling conventions:
* External collaborators (the Tor client, TLS engine, reqwest, serde)
  are black boxes; each collaborator call is represented by an oracle
  argument giving that call's outcome (for example
  `connectResult : Option DataStream` stands for the result of
  `circuit.connect(target).await`).
* C pointers to null-terminated strings are modelled by `CPtr`:
  null, non-null-but-invalid-UTF-8, or a decoded string.
* The global registries (`CLIENT`, `CIRCUITS`, `RUNTIME`, `STREAMS`)
  form `GlobalState`; hash maps are association lists with
  insert-replaces semantics.  The thread-local `TLS_STREAMS` map of the
  calling thread is passed separately as a `TlsMap`.
* Mutex acquisition is modelled as always succeeding (the poisoned-lock
  error arms of the source are not reachable in a panic-free model).
* Dereferencing a null pointer (`CStr::from_ptr`,
  `slice::from_raw_parts`) is undefined behavior in the source; it is
  modelled by the distinguished outcome `TlsRet.undef`.
-/

/-- Abstract handle to a bootstrapped `TorClient` collaborator instance. -/
abbrev TorClient := Nat

/-- Abstract handle to an open `DataStream` collaborator instance. -/
abbrev DataStream := Nat

/-- Abstract handle to an established `TlsStream<DataStream>` instance. -/
abbrev TlsHandle := Nat

/-- A C string pointer argument: null, non-null but invalid UTF-8
(`CStr::to_str` fails), or valid with its decoded contents. -/
inductive CPtr where
  | null
  | invalid
  | valid (s : String)
deriving DecidableEq, Repr

/-- Lookup in a registry map (`HashMap::get`). -/
def mapGet {α : Type} (m : List (String × α)) (k : String) : Option α :=
  (m.find? (fun p => p.1 == k)).map Prod.snd

/-- Insertion into a registry map (`HashMap::insert`): a duplicate key
silently overwrites the previous entry. -/
def mapInsert {α : Type} (m : List (String × α)) (k : String) (v : α) :
    List (String × α) :=
  (k, v) :: m.filter (fun p => p.1 != k)

/-- Removal from a registry map (`HashMap::remove`). -/
def mapRemove {α : Type} (m : List (String × α)) (k : String) :
    List (String × α) :=
  m.filter (fun p => p.1 != k)

/-- The process-wide mutable state of the library: the `CLIENT`,
`CIRCUITS`, `RUNTIME` and `STREAMS` globals.  `runtimeUp` records
whether the lazily-created Tokio runtime exists. -/
structure GlobalState where
  client : Option TorClient
  circuits : List (String × TorClient)
  runtimeUp : Bool
  streams : List (String × DataStream)
deriving DecidableEq, Repr

/-- The thread-local `TLS_STREAMS` registry of the calling thread. -/
abbrev TlsMap := List (String × TlsHandle)

/-- `get_or_create_runtime`: double-checked lazy creation of the shared
Tokio runtime.  `createOk` is the oracle for `Builder::build()`; `none`
models the `RuntimeCreationError` failure. -/
def get_or_create_runtime (st : GlobalState) (createOk : Bool) :
    Option GlobalState :=
  if st.runtimeUp then some st
  else if createOk then some { st with runtimeUp := true }
  else none

/-- Internal error taxonomy of the Rust helper functions (the `anyhow`
error messages of the source). -/
inductive ArtiErr where
  | notInitialized
  | notFound
  | connectionFailed
  | runtimeErr
deriving DecidableEq, Repr

/-- `is_connected`: true iff a Client is currently stored. -/
def is_connected (st : GlobalState) : Bool :=
  st.client.isSome

/-- `shutdown_tor`: clears the circuit registry, then clears the client.
The source always returns `Ok(())`. -/
def shutdown_tor (st : GlobalState) : GlobalState :=
  { st with circuits := [], client := none }

/-- `create_circuit`: fails with "Tor client not initialized" when no
client is stored; otherwise stores `circuit_id → Arc(client)`. -/
def create_circuit (st : GlobalState) (circuit_id : String) :
    Except ArtiErr GlobalState :=
  match st.client with
  | none => .error .notInitialized
  | some c => .ok { st with circuits := mapInsert st.circuits circuit_id c }

/-- `destroy_circuit`: removes the registry entry, failing with
"Circuit not found" when absent. -/
def destroy_circuit (st : GlobalState) (circuit_id : String) :
    Except ArtiErr GlobalState :=
  if (mapGet st.circuits circuit_id).isSome then
    .ok { st with circuits := mapRemove st.circuits circuit_id }
  else .error .notFound

/-- `bootstrap_tor`: succeeds iff a client is stored (the client is
already bootstrapped when created). -/
def bootstrap_tor (st : GlobalState) : Except ArtiErr Unit :=
  if st.client.isSome then .ok () else .error .notInitialized

/-- `get_tor_client_by_circuit`: circuit-registry lookup. -/
def get_tor_client_by_circuit (st : GlobalState) (circuit_id : String) :
    Option TorClient :=
  mapGet st.circuits circuit_id

/-- `initialize_tor_client`: acquires the runtime, blocks on
`TorClient::create_bootstrapped` (oracle `bootstrapResult`), and stores
the resulting client.  The configuration file is only read and echoed
for diagnostics in the source; it has no semantic effect and is omitted.
Returns the state after side effects together with the result. -/
def initialize_tor_client (st : GlobalState) (createOk : Bool)
    (bootstrapResult : Option TorClient) :
    GlobalState × Except ArtiErr Unit :=
  match get_or_create_runtime st createOk with
  | none => (st, .error .runtimeErr)
  | some st1 =>
    if st1.runtimeUp then
      match bootstrapResult with
      | none => (st1, .error .connectionFailed)
      | some c => ({ st1 with client := some c }, .ok ())
    else (st1, .error .runtimeErr)

/-- `arti_init`: wraps `initialize_tor_client(None)`, returning 1 on
success and 0 on failure. -/
def arti_init (st : GlobalState) (createOk : Bool)
    (bootstrapResult : Option TorClient) : Int × GlobalState :=
  match initialize_tor_client st createOk bootstrapResult with
  | (st1, .ok _) => (1, st1)
  | (st1, .error _) => (0, st1)

/-- `arti_init_with_config`: a null path falls back to `arti_init`; an
undecodable path fails; otherwise the path is only echoed for
diagnostics and initialization proceeds exactly as `arti_init`. -/
def arti_init_with_config (config_path : CPtr) (st : GlobalState)
    (createOk : Bool) (bootstrapResult : Option TorClient) :
    Int × GlobalState :=
  match config_path with
  | .null => arti_init st createOk bootstrapResult
  | .invalid => (0, st)
  | .valid _ => arti_init st createOk bootstrapResult

/-- `arti_create_circuit`: null/undecodable id fails; otherwise wraps
`create_circuit`. -/
def arti_create_circuit (circuit_id : CPtr) (st : GlobalState) :
    Int × GlobalState :=
  match circuit_id with
  | .null => (0, st)
  | .invalid => (0, st)
  | .valid s =>
    match create_circuit st s with
    | .ok st1 => (1, st1)
    | .error _ => (0, st)

/-- `arti_destroy_circuit`: null/undecodable id fails; otherwise wraps
`destroy_circuit`. -/
def arti_destroy_circuit (circuit_id : CPtr) (st : GlobalState) :
    Int × GlobalState :=
  match circuit_id with
  | .null => (0, st)
  | .invalid => (0, st)
  | .valid s =>
    match destroy_circuit st s with
    | .ok st1 => (1, st1)
    | .error _ => (0, st)

/-- `arti_connect`: wraps `bootstrap_tor`. -/
def arti_connect (st : GlobalState) : Int :=
  match bootstrap_tor st with
  | .ok _ => 1
  | .error _ => 0

/-- `arti_disconnect`: wraps `shutdown_tor`, which always succeeds. -/
def arti_disconnect (st : GlobalState) : Int × GlobalState :=
  (1, shutdown_tor st)

/-- `arti_is_connected`: 1 iff a client is stored. -/
def arti_is_connected (st : GlobalState) : Int :=
  if is_connected st then 1 else 0

/-- Value of a C `int` argument after Rust's `as usize` cast
(two's-complement reinterpretation modulo `2^64`). -/
def usizeOfInt (i : Int) : Nat :=
  (i % (2 : Int) ^ 64).toNat

/-- The stream identifier generated by `arti_connect_stream`:
`format!("{}-stream-{}", circuit_id_str, unix_millis)`, where the
millisecond timestamp is rendered in decimal. -/
def genStreamId (circuit_id_str : String) (millis : Nat) : String :=
  circuit_id_str ++ "-stream-" ++ Nat.repr millis

/-- Result of `arti_connect_stream`: the status code, the contents
written into the caller's `stream_id` output buffer (`none` when the
buffer was left untouched), the state after the call, and whether the
network connect collaborator call was attempted. -/
structure ConnectStreamRet where
  code : Int
  buffer : Option String
  st : GlobalState
  connectAttempted : Bool
deriving DecidableEq, Repr

/-- `arti_connect_stream`: validates pointers and the port, generates
the stream identifier from the circuit id and the current millisecond
timestamp, copies it into the caller's buffer (failing first when it
does not fit, terminator included), then resolves the runtime and the
circuit, blocks on the connect (oracle `connectResult`), and on success
stores the stream under the generated identifier.
`stream_id_isNull` models nullness of the output buffer pointer. -/
def arti_connect_stream (circuit_id target_host : CPtr) (target_port : Int)
    (stream_id_isNull : Bool) (stream_id_len : Int) (millis : Nat)
    (st : GlobalState) (createOk : Bool)
    (connectResult : Option DataStream) : ConnectStreamRet :=
  if circuit_id = CPtr.null ∨ target_host = CPtr.null ∨
      stream_id_isNull ∨ target_port ≤ 0 then
    ⟨0, none, st, false⟩
  else match circuit_id, target_host with
  | CPtr.null, _ => ⟨0, none, st, false⟩
  | _, CPtr.null => ⟨0, none, st, false⟩
  | CPtr.invalid, _ => ⟨0, none, st, false⟩
  | CPtr.valid _, CPtr.invalid => ⟨0, none, st, false⟩
  | CPtr.valid circuit_id_str, CPtr.valid _host_str =>
    let stream_id_str := genStreamId circuit_id_str millis
    if stream_id_str.data.any (fun c => c.toNat == 0) then
      ⟨0, none, st, false⟩
    else if stream_id_str.utf8ByteSize + 1 > usizeOfInt stream_id_len then
      ⟨0, none, st, false⟩
    else
      match get_or_create_runtime st createOk with
      | none => ⟨0, some stream_id_str, st, false⟩
      | some st1 =>
        if !st1.runtimeUp then ⟨0, some stream_id_str, st1, false⟩
        else match mapGet st1.circuits circuit_id_str with
        | none => ⟨0, some stream_id_str, st1, false⟩
        | some _circuit =>
          match connectResult with
          | none => ⟨0, some stream_id_str, st1, true⟩
          | some stream =>
            ⟨1, some stream_id_str,
              { st1 with streams := mapInsert st1.streams stream_id_str stream },
              true⟩

/-- `arti_write_stream`: validates pointers and length, resolves the
runtime and the stream, and blocks on `write_all` (oracle `writeOk`). -/
def arti_write_stream (stream_id : CPtr) (data_isNull : Bool)
    (data_len : Int) (st : GlobalState) (createOk : Bool)
    (writeOk : Bool) : Int × GlobalState :=
  if stream_id = CPtr.null ∨ data_isNull ∨ data_len ≤ 0 then (0, st)
  else match stream_id with
  | .null => (0, st)
  | .invalid => (0, st)
  | .valid s =>
    match get_or_create_runtime st createOk with
    | none => (0, st)
    | some st1 =>
      if !st1.runtimeUp then (0, st1)
      else match mapGet st1.streams s with
      | none => (0, st1)
      | some _ => if writeOk then (1, st1) else (0, st1)

/-- `arti_flush_stream`: validates the pointer, resolves the runtime and
the stream, and blocks on `flush` (oracle `flushOk`). -/
def arti_flush_stream (stream_id : CPtr) (st : GlobalState)
    (createOk : Bool) (flushOk : Bool) : Int × GlobalState :=
  match stream_id with
  | .null => (0, st)
  | .invalid => (0, st)
  | .valid s =>
    match get_or_create_runtime st createOk with
    | none => (0, st)
    | some st1 =>
      if !st1.runtimeUp then (0, st1)
      else match mapGet st1.streams s with
      | none => (0, st1)
      | some _ => if flushOk then (1, st1) else (0, st1)

/-- Result of `arti_read_stream`: status code, value stored through the
`bytes_read` output pointer (`none` when untouched), state after. -/
structure ReadStreamRet where
  code : Int
  bytesOut : Option Nat
  st : GlobalState
deriving DecidableEq, Repr

/-- `arti_read_stream`: validates pointers and capacity, resolves the
runtime and the stream, blocks on `read` (oracle `readResult`, the byte
count on success), stores the count through `bytes_read` and returns 1;
a zero count (end of stream) is still a success. -/
def arti_read_stream (stream_id : CPtr) (buffer_isNull : Bool)
    (buffer_len : Int) (bytes_read_isNull : Bool) (st : GlobalState)
    (createOk : Bool) (readResult : Option Nat) : ReadStreamRet :=
  if stream_id = CPtr.null ∨ buffer_isNull ∨ buffer_len ≤ 0 ∨
      bytes_read_isNull then
    ⟨0, none, st⟩
  else match stream_id with
  | .null => ⟨0, none, st⟩
  | .invalid => ⟨0, none, st⟩
  | .valid s =>
    match get_or_create_runtime st createOk with
    | none => ⟨0, none, st⟩
    | some st1 =>
      if !st1.runtimeUp then ⟨0, none, st1⟩
      else match mapGet st1.streams s with
      | none => ⟨0, none, st1⟩
      | some _ =>
        match readResult with
        | some n => ⟨1, some n, st1⟩
        | none => ⟨0, none, st1⟩

/-- `arti_close_stream`: validates the pointer, then removes and drops
the registry entry, failing when it is absent. -/
def arti_close_stream (stream_id : CPtr) (st : GlobalState) :
    Int × GlobalState :=
  match stream_id with
  | .null => (0, st)
  | .invalid => (0, st)
  | .valid s =>
    if (mapGet st.streams s).isSome then
      (1, { st with streams := mapRemove st.streams s })
    else (0, st)

/-- Error taxonomy of `http_request` (the `anyhow` messages of the
source, in the order they can arise). -/
inductive HttpErr where
  | circuitNotFound
  | proxyErr
  | buildErr
  | headersParseErr
  | unsupportedMethod
  | runtimeErr
  | requestFailed
  | bodyReadFailed
deriving DecidableEq, Repr

/-- Head of a collaborator HTTP response: status code and headers (only
headers whose values convert to strings survive, which the model folds
into the oracle's list). -/
structure HttpResponse where
  status : Nat
  headers : List (String × String)
deriving DecidableEq, Repr

deriving instance DecidableEq for Except

/-- Result of `http_request`: the JSON envelope or the error, and
whether the network send collaborator call was attempted. -/
structure HttpRet where
  result : Except HttpErr String
  networkAttempted : Bool
deriving DecidableEq, Repr

/-- Rust's `str::to_uppercase` (the source only compares against ASCII
verbs, for which per-character upper-casing coincides with it). -/
def strToUpper (s : String) : String :=
  ⟨s.data.map Char.toUpper⟩

/-- The HTTP verbs for which `http_request` builds a request (the arms
of its `match method.to_uppercase()`). -/
def allowedMethods : List String :=
  ["GET", "POST", "PUT", "DELETE", "HEAD", "PATCH"]

/-- JSON string escaping as performed by the serializer collaborator
(escapes the quote, the backslash, and control characters). -/
def jsonEscapeChar (c : Char) : String :=
  if c = '"' then "\\\""
  else if c = '\\' then "\\\\"
  else if c = '\n' then "\\n"
  else if c = '\r' then "\\r"
  else if c = '\t' then "\\t"
  else if c.toNat < 32 then "\\u00" ++
    (if c.toNat < 16 then "0" else "1") ++
    String.singleton (Nat.digitChar (c.toNat % 16))
  else String.singleton c

/-- A JSON string literal. -/
def jsonString (s : String) : String :=
  "\"" ++ String.join (s.data.map jsonEscapeChar) ++ "\""

/-- A flat JSON object of string keys and string values. -/
def jsonHeadersObj (hs : List (String × String)) : String :=
  "\x7b" ++
    String.intercalate ","
      (hs.map (fun p => jsonString p.1 ++ ":" ++ jsonString p.2)) ++
  "\x7d"

/-- The compact JSON envelope `{status, headers, body}` produced via
`serde_json::json!(...).to_string()`; `serde_json`'s object map is
ordered, so the top-level keys appear alphabetically. -/
def jsonEnvelope (status : Nat) (hs : List (String × String))
    (body : String) : String :=
  "\x7b\"body\":" ++ jsonString body ++
    ",\"headers\":" ++ jsonHeadersObj hs ++
    ",\"status\":" ++ Nat.repr status ++ "\x7d"

/-- `http_request`: resolves the circuit (only to confirm the client
exists), builds a reqwest client over the fixed local SOCKS proxy
(oracles `proxyOk`, `buildOk`), parses the headers JSON (oracle
`headersParsed`, the outcome of `serde_json::from_str`), matches the
upper-cased method against the six supported verbs, creates a fresh
Tokio runtime (oracle `newRuntimeOk`), sends the request (oracle
`sendResult`), reads the body text (oracle `textResult`) and renders the
JSON envelope.  Certificate validation is always enforced
(`danger_accept_invalid_certs(false)`). -/
def http_request (st : GlobalState) (circuit_id _url method : String)
    (headersParsed : Option (List (String × String))) (_body : String)
    (proxyOk buildOk newRuntimeOk : Bool)
    (sendResult : Option HttpResponse) (textResult : Option String) :
    HttpRet :=
  match get_tor_client_by_circuit st circuit_id with
  | none => ⟨.error .circuitNotFound, false⟩
  | some _ =>
    if !proxyOk then ⟨.error .proxyErr, false⟩
    else if !buildOk then ⟨.error .buildErr, false⟩
    else match headersParsed with
    | none => ⟨.error .headersParseErr, false⟩
    | some _hs =>
      if strToUpper method ∈ allowedMethods then
        if !newRuntimeOk then ⟨.error .runtimeErr, false⟩
        else match sendResult with
        | none => ⟨.error .requestFailed, true⟩
        | some resp =>
          match textResult with
          | none => ⟨.error .bodyReadFailed, true⟩
          | some bodyText =>
            ⟨.ok (jsonEnvelope resp.status resp.headers bodyText), true⟩
      else ⟨.error .unsupportedMethod, false⟩

/-- `CStr::to_str().unwrap_or(default)`: an undecodable (non-null)
string argument is replaced by a default instead of failing. -/
def decodeOr (p : CPtr) (dflt : String) : String :=
  match p with
  | .valid s => s
  | _ => dflt

/-- The UTF-8 bytes of a string (`str::as_bytes`). -/
def strBytes (s : String) : List Nat :=
  (s.data.flatMap String.utf8EncodeChar).map (fun b => b.toNat)

/-- Result of `arti_http_request`: status code, bytes written into the
caller's response buffer (`none` when untouched), and whether the
network send was attempted. -/
structure HttpFfiRet where
  code : Int
  buffer : Option (List Nat)
  networkAttempted : Bool
deriving DecidableEq, Repr

/-- `arti_http_request`: null-checks all six pointers, decodes the
string arguments with `unwrap_or` defaults, delegates to
`http_request`, and on success copies
`min(response.len, response_len as usize - 1)` bytes followed by a null
terminator into the caller's buffer, returning 1; on error it returns 0
with the buffer untouched.  The `- 1` uses wrapping usize
arithmetic. -/
def arti_http_request (circuit_id url method headers body : CPtr)
    (response_isNull : Bool) (response_len : Int) (st : GlobalState)
    (headersParsed : Option (List (String × String)))
    (proxyOk buildOk newRuntimeOk : Bool)
    (sendResult : Option HttpResponse) (textResult : Option String) :
    HttpFfiRet :=
  if circuit_id = CPtr.null ∨ url = CPtr.null ∨ method = CPtr.null ∨
      headers = CPtr.null ∨ body = CPtr.null ∨ response_isNull then
    ⟨0, none, false⟩
  else
    let circuit_id_str := decodeOr circuit_id ""
    let url_str := decodeOr url ""
    let method_str := decodeOr method ""
    let _headers_str := decodeOr headers "\x7b\x7d"
    let body_str := decodeOr body ""
    match http_request st circuit_id_str url_str method_str
        headersParsed body_str proxyOk buildOk newRuntimeOk
        sendResult textResult with
    | ⟨.ok response_str, na⟩ =>
      let response_bytes := strBytes response_str
      let max_len := (usizeOfInt response_len + (2 ^ 64 - 1)) % 2 ^ 64
      let copy_len := min response_bytes.length max_len
      ⟨1, some (response_bytes.take copy_len ++ [0]), na⟩
    | ⟨.error _, na⟩ => ⟨0, none, na⟩

/-- Outcome of a TLS entry point: a returned status code with the state
and the calling thread's TLS registry after the call, or undefined
behavior from dereferencing a null pointer (these entry points perform
no null checks). -/
inductive TlsRet where
  | ret (code : Int) (st : GlobalState) (tls : TlsMap)
  | undef
deriving DecidableEq, Repr

/-- `arti_connect_tls_stream`: validates pointers and the port range,
decodes the three strings, resolves the runtime and the circuit, blocks
on the plain connect (oracle `connectResult`), validates the hostname
as a TLS server name (oracle `serverNameOk`), performs the handshake
with the shared validated-certificate configuration (oracle
`handshakeResult`), and stores the TLS stream in the calling thread's
registry.  NOTE: the source inserts under `circuit_id_str`, not under
the caller-supplied `stream_id` (which is only decoded and printed). -/
def arti_connect_tls_stream (circuit_id host : CPtr) (port : Int)
    (stream_id : CPtr) (st : GlobalState) (tls : TlsMap)
    (createOk : Bool) (connectResult : Option DataStream)
    (serverNameOk : Bool) (handshakeResult : Option TlsHandle) : TlsRet :=
  if circuit_id = CPtr.null ∨ host = CPtr.null ∨ stream_id = CPtr.null ∨
      port ≤ 0 ∨ port > 65535 then
    .ret 0 st tls
  else match circuit_id, host, stream_id with
  | CPtr.valid circuit_id_str, CPtr.valid _host_str, CPtr.valid _sid =>
    match get_or_create_runtime st createOk with
    | none => .ret 0 st tls
    | some st1 =>
      if !st1.runtimeUp then .ret 0 st1 tls
      else match get_tor_client_by_circuit st1 circuit_id_str with
      | none => .ret 0 st1 tls
      | some _client =>
        match connectResult with
        | none => .ret 0 st1 tls
        | some _stream =>
          if !serverNameOk then .ret 0 st1 tls
          else match handshakeResult with
          | none => .ret 0 st1 tls
          | some tlsStream =>
            .ret 1 st1 (mapInsert tls circuit_id_str tlsStream)
  | _, _, _ => .ret 0 st tls

/-- `arti_tls_write`: performs no null checks; `CStr::from_ptr` on the
`stream_id` pointer and `slice::from_raw_parts` on the `data` pointer
dereference unconditionally.  Otherwise resolves the runtime, looks the
stream up in the calling thread's registry, and writes under the
per-entry lock (oracle `writeOk`). -/
def arti_tls_write (stream_id : CPtr) (data_isNull : Bool)
    (st : GlobalState) (tls : TlsMap) (createOk : Bool)
    (writeOk : Bool) : TlsRet :=
  match stream_id with
  | .null => .undef
  | .invalid => .ret 0 st tls
  | .valid s =>
    if data_isNull then .undef
    else match get_or_create_runtime st createOk with
    | none => .ret 0 st tls
    | some st1 =>
      if !st1.runtimeUp then .ret 0 st1 tls
      else match mapGet tls s with
      | none => .ret 0 st1 tls
      | some _ => if writeOk then .ret 1 st1 tls else .ret 0 st1 tls

/-- `arti_flush_tls_stream`: performs no null check on `stream_id`;
otherwise resolves the runtime, looks the stream up in the calling
thread's registry, and flushes under the per-entry lock (oracle
`flushOk`). -/
def arti_flush_tls_stream (stream_id : CPtr) (st : GlobalState)
    (tls : TlsMap) (createOk : Bool) (flushOk : Bool) : TlsRet :=
  match stream_id with
  | .null => .undef
  | .invalid => .ret 0 st tls
  | .valid s =>
    match get_or_create_runtime st createOk with
    | none => .ret 0 st tls
    | some st1 =>
      if !st1.runtimeUp then .ret 0 st1 tls
      else match mapGet tls s with
      | none => .ret 0 st1 tls
      | some _ => if flushOk then .ret 1 st1 tls else .ret 0 st1 tls

/-- `n as c_int`: two's-complement truncation of a usize value to a
signed 32-bit integer. -/
def intOfNat32 (n : Nat) : Int :=
  ((n : Int) + 2 ^ 31) % 2 ^ 32 - 2 ^ 31

/-- `arti_tls_read`: performs no null checks on `stream_id` or
`buffer`; failure paths return -1 instead of 0; on success it returns
the byte count read (oracle `readResult`) cast to a C int. -/
def arti_tls_read (stream_id : CPtr) (buffer_isNull : Bool)
    (st : GlobalState) (tls : TlsMap) (createOk : Bool)
    (readResult : Option Nat) : TlsRet :=
  match stream_id with
  | .null => .undef
  | .invalid => .ret (-1) st tls
  | .valid s =>
    if buffer_isNull then .undef
    else match get_or_create_runtime st createOk with
    | none => .ret (-1) st tls
    | some st1 =>
      if !st1.runtimeUp then .ret (-1) st1 tls
      else match mapGet tls s with
      | none => .ret (-1) st1 tls
      | some _ =>
        match readResult with
        | some n => .ret (intOfNat32 n) st1 tls
        | none => .ret (-1) st1 tls

/-- `arti_close_tls_stream`: performs no null check on `stream_id`;
otherwise removes the entry from the calling thread's registry, failing
when it is absent.  It does not touch the runtime or global state. -/
def arti_close_tls_stream (stream_id : CPtr) (st : GlobalState)
    (tls : TlsMap) : TlsRet :=
  match stream_id with
  | .null => .undef
  | .invalid => .ret 0 st tls
  | .valid s =>
    if (mapGet tls s).isSome then .ret 1 st (mapRemove tls s)
    else .ret 0 st tls

/-! ### Registry map lemmas -/

theorem mapGet_insert_self {α : Type} (m : List (String × α)) (k : String)
    (v : α) : mapGet (mapInsert m k v) k = some v := by
  simp [mapGet, mapInsert, List.find?]

theorem mapGet_remove_self {α : Type} (m : List (String × α)) (k : String) :
    mapGet (mapRemove m k) k = none := by
  have hfind : (List.filter (fun p => p.1 != k) m).find?
      (fun p => p.1 == k) = none := by
    rw [List.find?_eq_none]
    intro x hx
    rw [List.mem_filter] at hx
    simp only [bne_iff_ne, ne_eq] at hx
    simp [hx.2]
  simp [mapGet, mapRemove, hfind]

/-! ### Injectivity of decimal rendering (`Nat.repr`) -/

/-- Decimal value of a digit character. -/
def decDigitVal (c : Char) : Nat := c.toNat - 48

/-- Reads a decimal digit list on top of an accumulator. -/
def parseFrom (a : Nat) (l : List Char) : Nat :=
  l.foldl (fun acc c => acc * 10 + decDigitVal c) a

theorem parseFrom_cons (a : Nat) (c : Char) (l : List Char) :
    parseFrom a (c :: l) = parseFrom (a * 10 + decDigitVal c) l := rfl

theorem decDigitVal_digitChar : ∀ d, d < 10 →
    decDigitVal (Nat.digitChar d) = d := by decide

theorem parseFrom_toDigitsCore :
    ∀ (fuel n : Nat) (ds : List Char), n < 10 ^ fuel →
      parseFrom 0 (Nat.toDigitsCore 10 fuel n ds) = parseFrom n ds := by
  intro fuel
  induction fuel with
  | zero =>
    intro n ds h
    interval_cases n
    rfl
  | succ fuel ih =>
    intro n ds h
    show parseFrom 0 (Nat.toDigitsCore 10 (fuel + 1) n ds) = parseFrom n ds
    rw [Nat.toDigitsCore]
    by_cases h10 : n / 10 = 0
    · have hlt : n < 10 := by omega
      simp only [h10, if_pos]
      rw [parseFrom_cons, decDigitVal_digitChar _ (Nat.mod_lt _ (by norm_num))]
      rw [Nat.zero_mul, Nat.zero_add, Nat.mod_eq_of_lt hlt]
    · simp only [h10, if_neg, ite_false]
      rw [ih (n / 10) _ (by omega)]
      rw [parseFrom_cons, decDigitVal_digitChar _ (Nat.mod_lt _ (by norm_num))]
      have hdm : n / 10 * 10 + n % 10 = n := by omega
      rw [hdm]

theorem parseFrom_repr (n : Nat) : parseFrom 0 (Nat.repr n).data = n := by
  have hn : n < 10 ^ (n + 1) :=
    lt_of_lt_of_le (Nat.lt_pow_self (by norm_num) n)
      (Nat.pow_le_pow_right (by norm_num) (Nat.le_succ n))
  have h := parseFrom_toDigitsCore (n + 1) n [] hn
  simpa [Nat.repr, Nat.toDigits, List.asString, parseFrom] using h

theorem nat_repr_injective {m n : Nat} (h : Nat.repr m = Nat.repr n) :
    m = n := by
  have h2 := congrArg (fun s => parseFrom 0 s.data) h
  simpa [parseFrom_repr] using h2

theorem string_append_right_inj (s a b : String) (h : s ++ a = s ++ b) :
    a = b := by
  apply String.ext
  have hd := congrArg String.data h
  simp only [String.data_append] at hd
  exact List.append_cancel_left hd

theorem genStreamId_millis_inj {cid : String} {t1 t2 : Nat}
    (h : genStreamId cid t1 = genStreamId cid t2) : t1 = t2 := by
  unfold genStreamId at h
  exact nat_repr_injective
    (string_append_right_inj (cid ++ "-stream-") _ _ h)

/-! ### Claims -/

/-- C1: the claim says that after a successful
`connect_tls_stream(circuit_id, host, port, id)` the calling thread's
secure-stream registry contains an entry keyed by the caller-supplied
identifier `id`, found by a subsequent `close_tls_stream(id)`.  The
source instead inserts the TLS stream under the *circuit* identifier
(`lib.rs` line 1046), only printing the decoded `stream_id`; with
`circuit_id = "c0"` and `id = "s0"` the successful connect leaves no
entry under `"s0"` (the entry is under `"c0"`), and
`close_tls_stream("s0")` fails, contradicting the function's own
documentation of `stream_id` as the stream's identifier. -/
theorem c1_tls_registry_keyed_by_circuit_id_bug :
    arti_connect_tls_stream (CPtr.valid "c0") (CPtr.valid "h") 443
        (CPtr.valid "s0") ⟨some 7, [("c0", 7)], true, []⟩ [] true
        (some 3) true (some 5) =
      TlsRet.ret 1 ⟨some 7, [("c0", 7)], true, []⟩ [("c0", 5)] ∧
    mapGet ([("c0", 5)] : TlsMap) "s0" = none ∧
    mapGet ([("c0", 5)] : TlsMap) "c0" = some 5 ∧
    arti_close_tls_stream (CPtr.valid "s0")
        ⟨some 7, [("c0", 7)], true, []⟩ [("c0", 5)] =
      TlsRet.ret 0 ⟨some 7, [("c0", 7)], true, []⟩ [("c0", 5)] := by
  exact ⟨rfl, rfl, rfl, rfl⟩

/-- C3: the claim says every entry point returns the failure code
immediately on a null required pointer, in particular the TLS stream
operations.  The four TLS operations perform no null check at all: a
null `stream_id`, `data` or `buffer` pointer flows straight into
`CStr::from_ptr` / `slice::from_raw_parts`, which is undefined behavior
(a potential native fault across the FFI boundary), not a failure
return. -/
theorem c3_tls_null_pointer_not_checked_bug :
    arti_tls_write CPtr.null false ⟨none, [], false, []⟩ [] true true =
      TlsRet.undef ∧
    arti_tls_read CPtr.null false ⟨none, [], false, []⟩ [] true (some 0) =
      TlsRet.undef ∧
    arti_flush_tls_stream CPtr.null ⟨none, [], false, []⟩ [] true true =
      TlsRet.undef ∧
    arti_close_tls_stream CPtr.null ⟨none, [], false, []⟩ [] =
      TlsRet.undef ∧
    arti_tls_write (CPtr.valid "s") true ⟨none, [], false, []⟩ [] true
        true = TlsRet.undef ∧
    arti_tls_read (CPtr.valid "s") true ⟨none, [], false, []⟩ [] true
        (some 0) = TlsRet.undef := by
  exact ⟨rfl, rfl, rfl, rfl, rfl, rfl⟩

/-- C2, counterexample: the claim says that whenever a produced string
value (terminator included) exceeds the caller's buffer capacity the
call fails and writes nothing, in particular for `arti_http_request`'s
response buffer.  With a 48-byte response envelope and a 10-byte buffer,
`arti_http_request` returns 1 (success) and writes the first 9 response
bytes plus a null terminator - a partial write. -/
theorem c2_http_oversized_response_counterexample :
    (strBytes (jsonEnvelope 200 [] "hello world")).length + 1 >
      usizeOfInt 10 ∧
    arti_http_request (CPtr.valid "c") (CPtr.valid "http://x")
        (CPtr.valid "GET") (CPtr.valid "\x7b\x7d") (CPtr.valid "") false 10
        ⟨some 7, [("c", 7)], true, []⟩ (some []) true true true
        (some ⟨200, []⟩) (some "hello world") =
      ⟨1, some [123, 34, 98, 111, 100, 121, 34, 58, 34, 0], true⟩ := by
  exact ⟨by decide, by decide⟩

/-- C2, amended: the no-partial-write rule holds for
`arti_connect_stream`'s identifier output buffer (an identifier that
does not fit, terminator counted, fails with the buffer untouched and
no state change), but not for `arti_http_request`: when the inner
request succeeds with a response of at least `response_len - 1` bytes,
the call truncates the response to the first `response_len - 1` bytes,
appends a null terminator, and returns success. -/
theorem c2_amended_output_buffer_discipline :
    (∀ (cid host : String) (port slen : Int) (millis : Nat)
        (st : GlobalState) (createOk : Bool) (cres : Option DataStream),
      (genStreamId cid millis).utf8ByteSize + 1 > usizeOfInt slen →
      arti_connect_stream (CPtr.valid cid) (CPtr.valid host) port false
          slen millis st createOk cres = ⟨0, none, st, false⟩) ∧
    (∀ (cid url method headers body : CPtr) (rlen : Int)
        (st : GlobalState) (hp : Option (List (String × String)))
        (p b nr : Bool) (sr : Option HttpResponse) (tr : Option String)
        (r : String) (na : Bool),
      http_request st (decodeOr cid "") (decodeOr url "")
          (decodeOr method "") hp (decodeOr body "") p b nr sr tr =
        ⟨.ok r, na⟩ →
      cid ≠ CPtr.null → url ≠ CPtr.null → method ≠ CPtr.null →
      headers ≠ CPtr.null → body ≠ CPtr.null →
      1 ≤ usizeOfInt rlen →
      usizeOfInt rlen - 1 ≤ (strBytes r).length →
      arti_http_request cid url method headers body false rlen st hp
          p b nr sr tr =
        ⟨1, some ((strBytes r).take (usizeOfInt rlen - 1) ++ [0]), na⟩) := by
  constructor
  · intro cid host port slen millis st createOk cres hbig
    unfold arti_connect_stream
    split
    · rfl
    · dsimp only
      split
      · rfl
      · rfl
  · intro cid url method headers body rlen st hp p b nr sr tr r na hreq
      h1 h2 h3 h4 h5 hlen hbig
    have hu : usizeOfInt rlen < 2 ^ 64 := by
      unfold usizeOfInt
      have h0 : (0 : Int) < 2 ^ 64 := by positivity
      have := Int.emod_lt_of_pos rlen h0
      omega
    have hpow : (2 : Nat) ^ 64 = 18446744073709551616 := by norm_num
    have hmax : (usizeOfInt rlen + (2 ^ 64 - 1)) % 2 ^ 64 =
        usizeOfInt rlen - 1 := by
      rw [hpow] at hu ⊢
      omega
    unfold arti_http_request
    rw [if_neg (by simp [h1, h2, h3, h4, h5])]
    dsimp only
    rw [hreq]
    dsimp only
    rw [hmax, min_eq_right hbig]

/-- C2 witness: the amended theorem applied at concrete inputs - an
identifier that cannot fit a 0-capacity buffer, and a successful HTTP
request whose 48-byte envelope is truncated into a 10-byte buffer. -/
theorem c2_amended_output_buffer_discipline_witness :
    arti_connect_stream (CPtr.valid "c") (CPtr.valid "h") 80 false 0 0
        ⟨none, [], false, []⟩ true none =
      ⟨0, none, ⟨none, [], false, []⟩, false⟩ ∧
    arti_http_request (CPtr.valid "c") (CPtr.valid "http://x")
        (CPtr.valid "GET") (CPtr.valid "\x7b\x7d") (CPtr.valid "") false 10
        ⟨some 7, [("c", 7)], true, []⟩ (some []) true true true
        (some ⟨200, []⟩) (some "hello world") =
      ⟨1, some ((strBytes (jsonEnvelope 200 [] "hello world")).take
          (usizeOfInt 10 - 1) ++ [0]), true⟩ :=
  ⟨c2_amended_output_buffer_discipline.1 "c" "h" 80 0 0
      ⟨none, [], false, []⟩ true none (by decide),
   c2_amended_output_buffer_discipline.2 (CPtr.valid "c")
      (CPtr.valid "http://x") (CPtr.valid "GET") (CPtr.valid "\x7b\x7d")
      (CPtr.valid "") 10 ⟨some 7, [("c", 7)], true, []⟩ (some [])
      true true true (some ⟨200, []⟩) (some "hello world")
      (jsonEnvelope 200 [] "hello world") true (by decide) (by decide)
      (by decide) (by decide) (by decide) (by decide) (by decide)
      (by decide)⟩

/-- C4: `arti_connect_stream` with an output buffer whose capacity is
smaller than the generated identifier including its terminator returns
failure, leaves the state (hence the plain-stream registry) untouched,
writes nothing into the buffer, and never attempts the network
connect. -/
theorem c4_connect_stream_buffer_too_small :
    ∀ (cid host : String) (port slen : Int) (millis : Nat)
        (st : GlobalState) (createOk : Bool) (cres : Option DataStream),
      (genStreamId cid millis).utf8ByteSize + 1 > usizeOfInt slen →
      arti_connect_stream (CPtr.valid cid) (CPtr.valid host) port false
          slen millis st createOk cres = ⟨0, none, st, false⟩ := by
  intro cid host port slen millis st createOk cres hbig
  unfold arti_connect_stream
  split
  · rfl
  · dsimp only
    split
    · rfl
    · rfl

/-- C4 witness: the identifier `"c-stream-0"` (10 bytes + terminator)
does not fit a 5-byte buffer. -/
theorem c4_connect_stream_buffer_too_small_witness :
    (genStreamId "c" 0).utf8ByteSize + 1 > usizeOfInt 5 ∧
    arti_connect_stream (CPtr.valid "c") (CPtr.valid "example.com") 80
        false 5 0 ⟨some 7, [("c", 7)], true, []⟩ true (some 3) =
      ⟨0, none, ⟨some 7, [("c", 7)], true, []⟩, false⟩ :=
  ⟨by decide,
   c4_connect_stream_buffer_too_small "c" "example.com" 80 5 0
     ⟨some 7, [("c", 7)], true, []⟩ true (some 3) (by decide)⟩

/-- C6: `disconnect` always succeeds (returns 1), clears the circuit
registry and then the client, and is idempotent; afterwards
`is_connected` is false and any `create_circuit` fails with
`NotInitialized` - in particular in the scenario connect, create "A",
create "B", disconnect. -/
theorem c6_disconnect_idempotent_and_clears :
    (∀ st, arti_disconnect st =
        (1, { st with circuits := [], client := none })) ∧
    (∀ st, shutdown_tor (shutdown_tor st) = shutdown_tor st) ∧
    (∀ st, is_connected (shutdown_tor st) = false) ∧
    (∀ st cid2, create_circuit (shutdown_tor st) cid2 =
        .error ArtiErr.notInitialized) ∧
    (∀ st a b sta stb, create_circuit st a = .ok sta →
        create_circuit sta b = .ok stb →
        arti_is_connected (shutdown_tor stb) = 0 ∧
        create_circuit (shutdown_tor stb) a =
          .error ArtiErr.notInitialized) := by
  exact ⟨fun st => rfl, fun st => rfl, fun st => rfl, fun st cid2 => rfl,
    fun st a b sta stb _ _ => ⟨rfl, rfl⟩⟩

/-- C6 witness: the scenario `create_circuit "A"`, `create_circuit "B"`,
`disconnect` at a concrete connected state. -/
theorem c6_disconnect_idempotent_and_clears_witness :
    arti_is_connected (shutdown_tor ⟨some 7, [("B", 7), ("A", 7)], true, []⟩) = 0 ∧
    create_circuit (shutdown_tor ⟨some 7, [("B", 7), ("A", 7)], true, []⟩) "A" =
      .error ArtiErr.notInitialized :=
  c6_disconnect_idempotent_and_clears.2.2.2.2 ⟨some 7, [], true, []⟩
    "A" "B" ⟨some 7, [("A", 7)], true, []⟩
    ⟨some 7, [("B", 7), ("A", 7)], true, []⟩ (by decide) (by decide)

/-- C7: the generated stream identifier is exactly
`"{circuit_id}-stream-{unix_millis}"` with the timestamp rendered in
decimal; identifiers for the same circuit at distinct millisecond
timestamps are always distinct, and two calls in the same millisecond
produce the same identifier (a possible collision). -/
theorem c7_stream_id_format_and_uniqueness :
    (∀ cid millis, genStreamId cid millis =
        cid ++ "-stream-" ++ Nat.repr millis) ∧
    (∀ cid t1 t2, t1 ≠ t2 →
        genStreamId cid t1 ≠ genStreamId cid t2) ∧
    (∀ cid t, genStreamId cid t = genStreamId cid t) := by
  refine ⟨fun _ _ => rfl, ?_, fun _ _ => rfl⟩
  intro cid t1 t2 hne heq
  exact hne (genStreamId_millis_inj heq)

/-- C7 witness: distinct millisecond timestamps 1 and 2 give distinct
identifiers on circuit `"c"`. -/
theorem c7_stream_id_format_and_uniqueness_witness :
    genStreamId "c" 1 ≠ genStreamId "c" 2 :=
  c7_stream_id_format_and_uniqueness.2.1 "c" 1 2 (by decide)

/-- C8: `http_request` fails with `UnsupportedMethod` - before creating
a runtime and without attempting the network send - for any verb whose
upper-casing is not one of GET/POST/PUT/DELETE/HEAD/PATCH, provided the
circuit exists and the headers parse; and it never reports
`UnsupportedMethod` for those six verbs (matched case-insensitively). -/
theorem c8_unsupported_method_fails_fast :
    (∀ st cid url method hs body nr sr tr,
      (mapGet st.circuits cid).isSome = true →
      strToUpper method ∉ allowedMethods →
      http_request st cid url method (some hs) body true true nr sr tr =
        ⟨.error .unsupportedMethod, false⟩) ∧
    (∀ st cid url method hp body p b nr sr tr,
      strToUpper method ∈ allowedMethods →
      (http_request st cid url method hp body p b nr sr tr).result ≠
        .error HttpErr.unsupportedMethod) := by
  constructor
  · intro st cid url method hs body nr sr tr hc hm
    unfold http_request get_tor_client_by_circuit
    split
    · next heq => rw [heq] at hc; simp at hc
    · simp [hm]
  · intro st cid url method hp body p b nr sr tr hmem
    unfold http_request get_tor_client_by_circuit
    repeat' split
    all_goals simp_all

/-- C8 witness: `"TRACE"` is rejected without a network attempt on an
existing circuit, while the lower-case `"get"` is accepted. -/
theorem c8_unsupported_method_fails_fast_witness :
    http_request ⟨some 7, [("c", 7)], true, []⟩ "c" "http://x" "TRACE"
        (some []) "" true true true none none =
      ⟨.error .unsupportedMethod, false⟩ ∧
    (http_request ⟨some 7, [("c", 7)], true, []⟩ "c" "http://x" "get"
        (some []) "" true true true none none).result ≠
      .error HttpErr.unsupportedMethod :=
  ⟨c8_unsupported_method_fails_fast.1 ⟨some 7, [("c", 7)], true, []⟩
      "c" "http://x" "TRACE" [] "" true none none (by decide) (by decide),
   c8_unsupported_method_fails_fast.2 ⟨some 7, [("c", 7)], true, []⟩
      "c" "http://x" "get" (some []) "" true true true none none
      (by decide)⟩

/-- C9: a successful `connect_stream` followed immediately by
`close_stream` with the generated identifier succeeds and leaves the
plain-stream registry without that identifier; `close_stream` with an
identifier not in the registry fails (`NotFound`) and leaves the state
unchanged. -/
theorem c9_connect_close_roundtrip :
    (∀ (cid host : String) (port slen : Int) (millis : Nat)
        (st : GlobalState) (createOk : Bool) (ds : DataStream)
        (r : ConnectStreamRet),
      arti_connect_stream (CPtr.valid cid) (CPtr.valid host) port false
          slen millis st createOk (some ds) = r →
      r.code = 1 →
      (arti_close_stream (CPtr.valid (genStreamId cid millis)) r.st).1 = 1 ∧
      mapGet (arti_close_stream (CPtr.valid (genStreamId cid millis))
          r.st).2.streams (genStreamId cid millis) = none) ∧
    (∀ (sid : String) (st : GlobalState),
      mapGet st.streams sid = none →
      arti_close_stream (CPtr.valid sid) st = (0, st)) := by
  constructor
  · intro cid host port slen millis st createOk ds r hr hcode
    unfold arti_connect_stream at hr
    split at hr
    · subst hr; simp at hcode
    · dsimp only at hr
      split at hr
      · subst hr; simp at hcode
      · split at hr
        · subst hr; simp at hcode
        · split at hr
          · subst hr; simp at hcode
          · split at hr
            · subst hr; simp at hcode
            · split at hr
              · subst hr; simp at hcode
              · subst hr
                exact ⟨by simp [arti_close_stream, mapGet_insert_self],
                       by simp [arti_close_stream, mapGet_insert_self,
                                mapGet_remove_self]⟩
  · intro sid st hmiss
    unfold arti_close_stream
    simp [hmiss]

/-- C9 witness: a concrete successful connect on circuit `"c"` at
millisecond 5, closed immediately; and a close of the unknown
identifier `"zz"` on an empty registry. -/
theorem c9_connect_close_roundtrip_witness :
    ((arti_close_stream (CPtr.valid (genStreamId "c" 5))
        (⟨1, some "c-stream-5",
          ⟨some 7, [("c", 7)], true, [("c-stream-5", 3)]⟩, true⟩ :
          ConnectStreamRet).st).1 = 1 ∧
      mapGet (arti_close_stream (CPtr.valid (genStreamId "c" 5))
          (⟨1, some "c-stream-5",
            ⟨some 7, [("c", 7)], true, [("c-stream-5", 3)]⟩, true⟩ :
            ConnectStreamRet).st).2.streams (genStreamId "c" 5) = none) ∧
    arti_close_stream (CPtr.valid "zz") ⟨none, [], false, []⟩ =
      (0, ⟨none, [], false, []⟩) :=
  ⟨c9_connect_close_roundtrip.1 "c" "h" 80 64 5
      ⟨some 7, [("c", 7)], true, []⟩ true 3
      ⟨1, some "c-stream-5",
        ⟨some 7, [("c", 7)], true, [("c-stream-5", 3)]⟩, true⟩
      (by decide) (by decide),
   c9_connect_close_roundtrip.2 "zz" ⟨none, [], false, []⟩ (by decide)⟩

/-- C10: `arti_connect_stream` copies the generated identifier into the
caller's buffer before any network activity; when the circuit lookup or
the connect fails afterwards, the call returns 0 with the buffer
already overwritten by the identifier and without inserting a
plain-stream registry entry. -/
theorem c10_buffer_written_before_connect :
    ∀ (cid host : String) (port slen : Int) (millis : Nat)
        (st : GlobalState) (createOk : Bool) (cres : Option DataStream),
      0 < port →
      ((genStreamId cid millis).data.any (fun c => c.toNat == 0)) = false →
      (genStreamId cid millis).utf8ByteSize + 1 ≤ usizeOfInt slen →
      (mapGet st.circuits cid = none ∨ cres = none) →
      (arti_connect_stream (CPtr.valid cid) (CPtr.valid host) port false
          slen millis st createOk cres).code = 0 ∧
      (arti_connect_stream (CPtr.valid cid) (CPtr.valid host) port false
          slen millis st createOk cres).buffer =
        some (genStreamId cid millis) ∧
      (arti_connect_stream (CPtr.valid cid) (CPtr.valid host) port false
          slen millis st createOk cres).st.streams = st.streams := by
  intro cid host port slen millis st createOk cres hport hnul hfit hdisj
  unfold arti_connect_stream
  rw [if_neg (by
    simp only [not_or]
    refine ⟨by simp, by simp, by simp, by omega⟩)]
  dsimp only
  rw [if_neg (by simp [hnul]), if_neg (by omega)]
  split
  · exact ⟨rfl, rfl, rfl⟩
  · next st1 heq =>
    have hst1 : st1.circuits = st.circuits ∧ st1.streams = st.streams := by
      unfold get_or_create_runtime at heq
      split at heq
      · cases heq; exact ⟨rfl, rfl⟩
      · split at heq
        · cases heq; exact ⟨rfl, rfl⟩
        · cases heq
    split
    · exact ⟨rfl, rfl, hst1.2⟩
    · split
      · exact ⟨rfl, rfl, hst1.2⟩
      · next c hc =>
        rcases hdisj with hmiss | hnone
        · rw [hst1.1, hmiss] at hc; cases hc
        · subst hnone
          exact ⟨rfl, rfl, hst1.2⟩

/-- C10 witness: a connect on a state without the circuit `"c"`: the
call fails but the buffer already holds `"c-stream-0"`. -/
theorem c10_buffer_written_before_connect_witness :
    (arti_connect_stream (CPtr.valid "c") (CPtr.valid "h") 80 false 64 0
        ⟨some 7, [], true, []⟩ true (some 3)).code = 0 ∧
    (arti_connect_stream (CPtr.valid "c") (CPtr.valid "h") 80 false 64 0
        ⟨some 7, [], true, []⟩ true (some 3)).buffer =
      some (genStreamId "c" 0) ∧
    (arti_connect_stream (CPtr.valid "c") (CPtr.valid "h") 80 false 64 0
        ⟨some 7, [], true, []⟩ true (some 3)).st.streams =
      (⟨some 7, [], true, []⟩ : GlobalState).streams :=
  c10_buffer_written_before_connect "c" "h" 80 64 0
    ⟨some 7, [], true, []⟩ true (some 3) (by decide) (by decide)
    (by decide) (Or.inl (by decide))

/-! ### Return-code range helpers (one per entry point) -/

theorem code01_arti_init : ∀ st c b,
    (arti_init st c b).1 = 0 ∨ (arti_init st c b).1 = 1 := by
  intro st c b
  unfold arti_init
  repeat' split
  all_goals simp_all

theorem code01_arti_init_with_config : ∀ pth st c b,
    (arti_init_with_config pth st c b).1 = 0 ∨
    (arti_init_with_config pth st c b).1 = 1 := by
  intro pth st c b
  cases pth with
  | null => exact code01_arti_init st c b
  | invalid => exact Or.inl rfl
  | valid s => exact code01_arti_init st c b

theorem code01_arti_create_circuit : ∀ pc st,
    (arti_create_circuit pc st).1 = 0 ∨ (arti_create_circuit pc st).1 = 1 := by
  intro pc st
  unfold arti_create_circuit
  repeat' split
  all_goals simp_all

theorem code01_arti_destroy_circuit : ∀ pc st,
    (arti_destroy_circuit pc st).1 = 0 ∨
    (arti_destroy_circuit pc st).1 = 1 := by
  intro pc st
  unfold arti_destroy_circuit
  repeat' split
  all_goals simp_all

theorem code01_arti_connect : ∀ st,
    arti_connect st = 0 ∨ arti_connect st = 1 := by
  intro st
  unfold arti_connect
  repeat' split
  all_goals simp_all

theorem code01_arti_is_connected : ∀ st,
    arti_is_connected st = 0 ∨ arti_is_connected st = 1 := by
  intro st
  unfold arti_is_connected
  split
  · exact Or.inr rfl
  · exact Or.inl rfl

theorem code01_arti_connect_stream : ∀ ci th port bn slen millis st c cr,
    (arti_connect_stream ci th port bn slen millis st c cr).code = 0 ∨
    (arti_connect_stream ci th port bn slen millis st c cr).code = 1 := by
  intro ci th port bn slen millis st c cr
  unfold arti_connect_stream
  cases ci <;> cases th
  case valid.valid s1 s2 =>
    split
    · exact Or.inl rfl
    · dsimp only
      split
      · exact Or.inl rfl
      · split
        · exact Or.inl rfl
        · split
          · exact Or.inl rfl
          · split
            · exact Or.inl rfl
            · split
              · exact Or.inl rfl
              · split
                · exact Or.inl rfl
                · exact Or.inr rfl
  all_goals (split <;> exact Or.inl rfl)

theorem code01_arti_write_stream : ∀ sid dn dl st c w,
    (arti_write_stream sid dn dl st c w).1 = 0 ∨
    (arti_write_stream sid dn dl st c w).1 = 1 := by
  intro sid dn dl st c w
  unfold arti_write_stream
  repeat' split
  all_goals simp_all

theorem code01_arti_flush_stream : ∀ sid st c f,
    (arti_flush_stream sid st c f).1 = 0 ∨
    (arti_flush_stream sid st c f).1 = 1 := by
  intro sid st c f
  unfold arti_flush_stream
  repeat' split
  all_goals simp_all

theorem code01_arti_read_stream : ∀ sid bn bl brn st c rr,
    (arti_read_stream sid bn bl brn st c rr).code = 0 ∨
    (arti_read_stream sid bn bl brn st c rr).code = 1 := by
  intro sid bn bl brn st c rr
  unfold arti_read_stream
  repeat' split
  all_goals simp_all

theorem code01_arti_close_stream : ∀ sid st,
    (arti_close_stream sid st).1 = 0 ∨ (arti_close_stream sid st).1 = 1 := by
  intro sid st
  unfold arti_close_stream
  repeat' split
  all_goals simp_all

theorem code01_arti_http_request : ∀ ci u m hd bd rn rl st hp p bb nr sr tr,
    (arti_http_request ci u m hd bd rn rl st hp p bb nr sr tr).code = 0 ∨
    (arti_http_request ci u m hd bd rn rl st hp p bb nr sr tr).code = 1 := by
  intro ci u m hd bd rn rl st hp p bb nr sr tr
  unfold arti_http_request
  split
  · exact Or.inl rfl
  · dsimp only
    split
    · exact Or.inr rfl
    · exact Or.inl rfl

theorem code01_arti_connect_tls_stream :
    ∀ ci h port sid st tls c cr sn hs rc s2 t2,
      arti_connect_tls_stream ci h port sid st tls c cr sn hs =
        TlsRet.ret rc s2 t2 → rc = 0 ∨ rc = 1 := by
  intro ci h port sid st tls c cr sn hs rc s2 t2 hret
  unfold arti_connect_tls_stream at hret
  repeat' split at hret
  all_goals cases hret
  all_goals simp

theorem code01_arti_tls_write : ∀ sid dn st tls c w rc s2 t2,
    arti_tls_write sid dn st tls c w = TlsRet.ret rc s2 t2 →
    rc = 0 ∨ rc = 1 := by
  intro sid dn st tls c w rc s2 t2 hret
  unfold arti_tls_write at hret
  repeat' split at hret
  all_goals cases hret
  all_goals simp

theorem code01_arti_flush_tls_stream : ∀ sid st tls c f rc s2 t2,
    arti_flush_tls_stream sid st tls c f = TlsRet.ret rc s2 t2 →
    rc = 0 ∨ rc = 1 := by
  intro sid st tls c f rc s2 t2 hret
  unfold arti_flush_tls_stream at hret
  repeat' split at hret
  all_goals cases hret
  all_goals simp

theorem code01_arti_close_tls_stream : ∀ sid st tls rc s2 t2,
    arti_close_tls_stream sid st tls = TlsRet.ret rc s2 t2 →
    rc = 0 ∨ rc = 1 := by
  intro sid st tls rc s2 t2 hret
  unfold arti_close_tls_stream at hret
  repeat' split at hret
  all_goals cases hret
  all_goals simp

theorem code_arti_tls_read : ∀ sid bn st tls c rr rc s2 t2,
    arti_tls_read sid bn st tls c rr = TlsRet.ret rc s2 t2 →
    rc = -1 ∨ ∃ n, rr = some n ∧ rc = intOfNat32 n := by
  intro sid bn st tls c rr rc s2 t2 hret
  cases rr with
  | none =>
    unfold arti_tls_read at hret
    split at hret
    all_goals try split at hret
    all_goals try split at hret
    all_goals try split at hret
    all_goals try split at hret
    all_goals try contradiction
    all_goals injection hret with h1 h2 h3
    all_goals exact Or.inl (by omega)
  | some n =>
    unfold arti_tls_read at hret
    split at hret
    all_goals try split at hret
    all_goals try split at hret
    all_goals try split at hret
    all_goals try split at hret
    all_goals try contradiction
    all_goals injection hret with h1 h2 h3
    all_goals first
      | exact Or.inr ⟨n, rfl, by omega⟩
      | exact Or.inl (by omega)

theorem intOfNat32_small : ∀ n : Nat, n < 2 ^ 31 → intOfNat32 n = n := by
  intro n hn
  unfold intOfNat32
  omega

/-- C5: every exported entry point returns 1 on success and 0 on
failure - each always returns a code in `{0, 1}`, `arti_disconnect`
always returns 1 - with the single exception of `arti_tls_read`, whose
returned code is either -1 (failure) or the byte count read cast to a
C int (equal to the count itself for counts below `2^31`). -/
theorem c5_return_code_convention :
    (∀ st c b, (arti_init st c b).1 = 0 ∨ (arti_init st c b).1 = 1) ∧
    (∀ pth st c b, (arti_init_with_config pth st c b).1 = 0 ∨
        (arti_init_with_config pth st c b).1 = 1) ∧
    (∀ pc st, (arti_create_circuit pc st).1 = 0 ∨
        (arti_create_circuit pc st).1 = 1) ∧
    (∀ pc st, (arti_destroy_circuit pc st).1 = 0 ∨
        (arti_destroy_circuit pc st).1 = 1) ∧
    (∀ st, arti_connect st = 0 ∨ arti_connect st = 1) ∧
    (∀ st, (arti_disconnect st).1 = 1) ∧
    (∀ st, arti_is_connected st = 0 ∨ arti_is_connected st = 1) ∧
    (∀ ci th port bn slen millis st c cr,
        (arti_connect_stream ci th port bn slen millis st c cr).code = 0 ∨
        (arti_connect_stream ci th port bn slen millis st c cr).code = 1) ∧
    (∀ sid dn dl st c w, (arti_write_stream sid dn dl st c w).1 = 0 ∨
        (arti_write_stream sid dn dl st c w).1 = 1) ∧
    (∀ sid st c f, (arti_flush_stream sid st c f).1 = 0 ∨
        (arti_flush_stream sid st c f).1 = 1) ∧
    (∀ sid bn bl brn st c rr,
        (arti_read_stream sid bn bl brn st c rr).code = 0 ∨
        (arti_read_stream sid bn bl brn st c rr).code = 1) ∧
    (∀ sid st, (arti_close_stream sid st).1 = 0 ∨
        (arti_close_stream sid st).1 = 1) ∧
    (∀ ci u m hd bd rn rl st hp p bb nr sr tr,
        (arti_http_request ci u m hd bd rn rl st hp p bb nr sr tr).code = 0 ∨
        (arti_http_request ci u m hd bd rn rl st hp p bb nr sr tr).code = 1) ∧
    (∀ ci h port sid st tls c cr sn hs rc s2 t2,
        arti_connect_tls_stream ci h port sid st tls c cr sn hs =
          TlsRet.ret rc s2 t2 → rc = 0 ∨ rc = 1) ∧
    (∀ sid dn st tls c w rc s2 t2,
        arti_tls_write sid dn st tls c w = TlsRet.ret rc s2 t2 →
        rc = 0 ∨ rc = 1) ∧
    (∀ sid st tls c f rc s2 t2,
        arti_flush_tls_stream sid st tls c f = TlsRet.ret rc s2 t2 →
        rc = 0 ∨ rc = 1) ∧
    (∀ sid st tls rc s2 t2,
        arti_close_tls_stream sid st tls = TlsRet.ret rc s2 t2 →
        rc = 0 ∨ rc = 1) ∧
    (∀ sid bn st tls c rr rc s2 t2,
        arti_tls_read sid bn st tls c rr = TlsRet.ret rc s2 t2 →
        rc = -1 ∨ ∃ n, rr = some n ∧ rc = intOfNat32 n) ∧
    (∀ n : Nat, n < 2 ^ 31 → intOfNat32 n = n) :=
  ⟨code01_arti_init, code01_arti_init_with_config,
   code01_arti_create_circuit, code01_arti_destroy_circuit,
   code01_arti_connect, fun _ => rfl, code01_arti_is_connected,
   code01_arti_connect_stream, code01_arti_write_stream,
   code01_arti_flush_stream, code01_arti_read_stream,
   code01_arti_close_stream, code01_arti_http_request,
   code01_arti_connect_tls_stream, code01_arti_tls_write,
   code01_arti_flush_tls_stream, code01_arti_close_tls_stream,
   code_arti_tls_read, intOfNat32_small⟩

/-- C5 witness: the TLS-read clause applied at a concrete successful
read of 4 bytes (code is the byte count, not 1) and at a concrete
lookup failure (code is -1), plus the TLS-write clause at a success
(code 1). -/
theorem c5_return_code_convention_witness :
    ((0 : Int) = -1 ∨ (0 : Int) = 0 ∨ (0 : Int) = 1) ∧
    (intOfNat32 4 = -1 ∨ ∃ n, (some 4 : Option Nat) = some n ∧
        intOfNat32 4 = intOfNat32 n) ∧
    ((-1 : Int) = -1 ∨ ∃ n, (some 4 : Option Nat) = some n ∧
        (-1 : Int) = intOfNat32 n) ∧
    ((1 : Int) = 0 ∨ (1 : Int) = 1) ∧
    intOfNat32 4 = 4 := by
  refine ⟨Or.inr (Or.inl rfl), ?_, ?_, ?_, ?_⟩
  · exact c5_return_code_convention.2.2.2.2.2.2.2.2.2.2.2.2.2.2.2.2.2.1
      (CPtr.valid "s") false ⟨none, [], true, []⟩ [("s", 9)] true (some 4)
      (intOfNat32 4) ⟨none, [], true, []⟩ [("s", 9)] (by decide)
  · exact c5_return_code_convention.2.2.2.2.2.2.2.2.2.2.2.2.2.2.2.2.2.1
      (CPtr.valid "zz") false ⟨none, [], true, []⟩ [] true (some 4)
      (-1) ⟨none, [], true, []⟩ [] (by decide)
  · exact c5_return_code_convention.2.2.2.2.2.2.2.2.2.2.2.2.2.2.1
      (CPtr.valid "s") false ⟨none, [], true, []⟩ [("s", 9)] true true
      1 ⟨none, [], true, []⟩ [("s", 9)] (by decide)
  · exact c5_return_code_convention.2.2.2.2.2.2.2.2.2.2.2.2.2.2.2.2.2.2
      4 (by decide)
